import Mathlib

/-!
Verification of the employee-insights-api worker
(src/employee-insights-api/src/lib.rs).

The Rust source is a Cloudflare Workers HTTP layer over a single D1
(SQLite) table `insight_summary`.  We shallowly embed the table as a
`List InsightSummary` and each fixed SQL query as a Lean function on
that list (filter / sort / take / sum), following SQLite semantics:
`SUM` over an empty table yields `NULL` (modelled as `none`), `LIKE`
is ASCII-case-insensitive with `%` and `_` wildcards, `ORDER BY ... DESC`
is modelled by insertion sort under the corresponding total preorder.

Floating-point notes: the only f64 arithmetic in the source is the
ratio computation `(x / grand * 100.0 * 100.0).round() / 100.0`.  We
embed it over exact rationals, with division guarded by `Option`:
`none` models the IEEE NaN/Inf produced by a zero divisor (the inputs
are exact small integers, so apart from the zero-divisor case the
rational value is the ideal value of the computation).  Rust
`f64::round` rounds half away from zero; `rustRound` below does the
same on rationals.

Panics (`Option::unwrap` on a `None`, e.g. `as_i64()` applied to the
SQL `NULL` that `SUM` yields on an empty table) are modelled by an
`Option` result of the whole handler: `none` means the handler panics.
Repository/worker errors propagated with the `?` operator are modelled
with `Except RepoError`.
-/

/-- One row of the `insight_summary` table, as deserialized by the
source `InsightSummary` struct (i32 fields become `Int`, f64
percentage fields become `ℚ`). -/
structure InsightSummary where
  id : Int
  word_insight : String
  total_count : Int
  positif_count : Int
  negatif_count : Int
  netral_count : Int
  positif_percentage : ℚ
  negatif_percentage : ℚ
  netral_percentage : ℚ
  created_at : String
deriving Repr, DecidableEq

/-- The generic response envelope from the source. -/
structure ApiResponse (T : Type) where
  success : Bool
  data : T
  message : String
deriving Repr, DecidableEq

/-- Repository-level failures (connectivity, query, row decode),
propagated by the `?` operator in the source handlers. -/
inductive RepoError where
  | connectionFailure
  | queryFailure
  | decodeFailure
deriving Repr, DecidableEq

/-- `ORDER BY total_count DESC` as a relation: `a` comes no later
than `b` when `a.total_count ≥ b.total_count`. -/
def totalDescOrder (a b : InsightSummary) : Prop :=
  b.total_count ≤ a.total_count

instance : DecidableRel totalDescOrder := fun a b =>
  inferInstanceAs (Decidable (b.total_count ≤ a.total_count))

instance : IsTotal InsightSummary totalDescOrder :=
  ⟨fun a b => le_total b.total_count a.total_count⟩

instance : IsTrans InsightSummary totalDescOrder :=
  ⟨fun _ _ _ hab hbc => le_trans hbc hab⟩

/-- `ORDER BY <pct> DESC, total_count DESC` as a relation:
strictly larger percentage first, ties broken by larger
`total_count` first. -/
def pctDescOrder (sel : InsightSummary → ℚ) (a b : InsightSummary) : Prop :=
  sel b < sel a ∨ (sel a = sel b ∧ b.total_count ≤ a.total_count)

instance (sel : InsightSummary → ℚ) : DecidableRel (pctDescOrder sel) := fun a b =>
  inferInstanceAs (Decidable (_ ∨ _))

instance (sel : InsightSummary → ℚ) : IsTotal InsightSummary (pctDescOrder sel) := by
  constructor
  intro a b
  rcases lt_trichotomy (sel a) (sel b) with h | h | h
  · exact Or.inr (Or.inl h)
  · rcases le_total b.total_count a.total_count with ht | ht
    · exact Or.inl (Or.inr ⟨h, ht⟩)
    · exact Or.inr (Or.inr ⟨h.symm, ht⟩)
  · exact Or.inl (Or.inl h)

instance (sel : InsightSummary → ℚ) : IsTrans InsightSummary (pctDescOrder sel) := by
  constructor
  intro a b c hab hbc
  rcases hab with h1 | ⟨e1, t1⟩
  · rcases hbc with h2 | ⟨e2, _⟩
    · exact Or.inl (h2.trans h1)
    · exact Or.inl (e2 ▸ h1)
  · rcases hbc with h2 | ⟨e2, t2⟩
    · exact Or.inl (e1 ▸ h2)
    · exact Or.inr ⟨e1.trans e2, le_trans t2 t1⟩

/-- SQLite ASCII case folding used by `LIKE` (only `A`..`Z` fold). -/
def asciiLower (c : Char) : Char := c.toLower

/-- SQLite `LIKE` pattern matching: `%` matches any (possibly empty)
character sequence, `_` matches exactly one character, any other
pattern character matches ASCII-case-insensitively.  The source never
uses an `ESCAPE` clause, so there is none here. -/
def likeMatch : List Char → List Char → Bool
  | [], s => s.isEmpty
  | '%' :: ps, s => s.tails.any (fun t => likeMatch ps t)
  | '_' :: ps, s =>
    match s with
    | [] => false
    | _ :: s => likeMatch ps s
  | p :: ps, s =>
    match s with
    | [] => false
    | c :: s => (asciiLower p == asciiLower c) && likeMatch ps s

/-- Literal substring containment of `w` in `s` (the spec wording for
`getByWord`): some contiguous run of `s` equals `w` character for
character. -/
def isSubstrOf (w s : List Char) : Bool :=
  decide (w <:+: s)

/-- Column sum over the table, `SELECT SUM(col)`: SQLite yields the
SQL `NULL` (here `none`) when the table has no rows, otherwise the
integer sum. -/
def sqlSum (col : InsightSummary → Int) (tbl : List InsightSummary) : Option Int :=
  if tbl.isEmpty then none else some ((tbl.map col).sum)

/-- `SELECT SUM(total_count) as total FROM insight_summary`. -/
def sumTotalCount (tbl : List InsightSummary) : Option Int :=
  sqlSum (·.total_count) tbl

/-- `SELECT SUM(positif_count), SUM(negatif_count), SUM(netral_count)`. -/
def sumByCategory (tbl : List InsightSummary) : Option (Int × Int × Int) :=
  if tbl.isEmpty then none
  else some ((tbl.map (·.positif_count)).sum,
             (tbl.map (·.negatif_count)).sum,
             (tbl.map (·.netral_count)).sum)

/-- The Rust `as i32` cast applied to an i64 value: two's-complement
wrap-around into the i32 range. -/
def wrap32 (n : Int) : Int :=
  (n + 2 ^ 31) % 2 ^ 32 - 2 ^ 31

/-- Rust `f64::round`: nearest integer, halves away from zero.
Written with the executable `Rat.floor` so that concrete inputs
evaluate; `-(1 / 2 - q).floor` is the ceiling of `q - 1 / 2`. -/
def rustRound (q : ℚ) : Int :=
  if 0 ≤ q then (q + 1 / 2).floor else -(1 / 2 - q).floor

/-- The `* 100.0 * 100.0, round, / 100.0` step of the ratio
computation: the percentage rounded to two decimal places. -/
def round2pct (q : ℚ) : ℚ :=
  (rustRound (q * 100 * 100) : ℚ) / 100

/-- f64 division with `none` standing for the NaN/Inf produced by a
zero divisor (the unguarded `total_pos / total_all` of the source). -/
def f64div (x y : ℚ) : Option ℚ :=
  if y = 0 then none else some (x / y)

/-- One sentiment ratio as the source computes it:
`(x / total_all * 100.0 * 100.0).round() / 100.0`; `none` = NaN. -/
def ratioCalc (x total_all : ℚ) : Option ℚ :=
  (f64div x total_all).map round2pct

/-- `SELECT ... FROM insight_summary ORDER BY total_count DESC`. -/
def listAllByTotalDesc (tbl : List InsightSummary) : List InsightSummary :=
  List.insertionSort totalDescOrder tbl

/-- `... ORDER BY total_count DESC LIMIT limit`. -/
def sampleOrderedByTotal (limit : Nat) (tbl : List InsightSummary) : List InsightSummary :=
  (List.insertionSort totalDescOrder tbl).take limit

/-- `... WHERE <pct> > threshold ORDER BY <pct> DESC, total_count DESC
LIMIT limit` — the shared shape of the four top-insight queries. -/
def topByPercentage (sel : InsightSummary → ℚ) (threshold : ℚ) (limit : Nat)
    (tbl : List InsightSummary) : List InsightSummary :=
  (List.insertionSort (pctDescOrder sel)
    (tbl.filter (fun r => decide (threshold < sel r)))).take limit

/-- `format!("%{}%", word)` — the LIKE pattern built by the source,
without any escaping of `%` or `_` inside `word`. -/
def searchTerm (word : String) : String :=
  "%" ++ word ++ "%"

/-- `... WHERE wordInsight LIKE ?1 ORDER BY total_count DESC` with the
pattern `%word%` bound as parameter `?1`. -/
def searchByWord (word : String) (tbl : List InsightSummary) : List InsightSummary :=
  List.insertionSort totalDescOrder
    (tbl.filter (fun r => likeMatch (searchTerm word).data r.word_insight.data))

/-- The derived dashboard aggregate from the source.  The three ratio
fields carry `Option ℚ` because the source computes them with an
unguarded f64 division: `none` models NaN. -/
structure DashboardStats where
  total_insights : Int
  total_feedback : Int
  positive_ratio : Option ℚ
  negative_ratio : Option ℚ
  neutral_ratio : Option ℚ
  top_positive_insights : List InsightSummary
  top_negative_insights : List InsightSummary
  all_insights : List InsightSummary
deriving Repr, DecidableEq

/-- Handler for `GET /api/insights/summary`. -/
def get_insights_summary (tbl : List InsightSummary) : ApiResponse (List InsightSummary) :=
  { success := true
    data := listAllByTotalDesc tbl
    message := "Successfully retrieved all insights summary" }

/-- Handler for `GET /api/insights/dashboard`.  The result is `none`
when the handler panics: on an empty table `SUM` yields the SQL
`NULL`, `as_i64()` on it yields Rust `None`, and the following
`unwrap()` panics. -/
def get_dashboard_stats (tbl : List InsightSummary) : Option (ApiResponse DashboardStats) :=
  match sumTotalCount tbl, sumByCategory tbl with
  | some total_feedback, some (total_pos, total_neg, total_neu) =>
    let total_all : ℚ := (total_pos : ℚ) + (total_neg : ℚ) + (total_neu : ℚ)
    some
      { success := true
        data :=
          { total_insights := wrap32 tbl.length
            total_feedback := wrap32 total_feedback
            positive_ratio := ratioCalc (total_pos : ℚ) total_all
            negative_ratio := ratioCalc (total_neg : ℚ) total_all
            neutral_ratio := ratioCalc (total_neu : ℚ) total_all
            top_positive_insights := topByPercentage (·.positif_percentage) 70 5 tbl
            top_negative_insights := topByPercentage (·.negatif_percentage) 70 5 tbl
            all_insights := sampleOrderedByTotal 20 tbl }
        message := "Successfully retrieved dashboard statistics" }
  | _, _ => none

/-- Handler for `GET /api/insights/top-positive`. -/
def get_top_positive (tbl : List InsightSummary) : ApiResponse (List InsightSummary) :=
  { success := true
    data := topByPercentage (·.positif_percentage) 70 10 tbl
    message := "Successfully retrieved top positive insights" }

/-- Handler for `GET /api/insights/top-negative`. -/
def get_top_negative (tbl : List InsightSummary) : ApiResponse (List InsightSummary) :=
  { success := true
    data := topByPercentage (·.negatif_percentage) 70 10 tbl
    message := "Successfully retrieved top negative insights" }

/-- Handler for `GET /api/insights/:word`: the envelope together with
the HTTP status code (`Response::from_json` is 200; the missing-word
branch sets 400 with `with_status`).  `param` is `req.param("word")`;
the router passes the raw path segment, so an empty string, when it
reaches the handler, takes the `Some` branch. -/
def get_insight_by_word (param : Option String) (tbl : List InsightSummary) :
    ApiResponse (List InsightSummary) × Nat :=
  match param with
  | some word =>
    ({ success := true
       data := searchByWord word tbl
       message := "Successfully retrieved insights for '" ++ word ++ "'" }, 200)
  | none =>
    ({ success := false
       data := []
       message := "Word parameter is required" }, 400)

/-- The `?` operator on the D1 query result inside a handler: a
repository error short-circuits out of the handler body, so the
handler never builds an envelope for it. -/
def runWithDb {α β : Type} (db : Except RepoError α) (body : α → β) : Except RepoError β :=
  db.map body

/-- `get_insights_summary` seen from the worker boundary: the D1 call
either yields the rows or a `RepoError` that `?` re-raises. -/
def get_insights_summary_boundary (db : Except RepoError (List InsightSummary)) :
    Except RepoError (ApiResponse (List InsightSummary)) :=
  runWithDb db get_insights_summary

/-- `get_dashboard_stats` seen from the worker boundary. -/
def get_dashboard_stats_boundary (db : Except RepoError (List InsightSummary)) :
    Except RepoError (Option (ApiResponse DashboardStats)) :=
  runWithDb db get_dashboard_stats

/-- The executable `Rat.floor` agrees with the `Int.floor` of the
`FloorRing` instance on `ℚ`. -/
theorem ratFloor_eq_intFloor (q : ℚ) : q.floor = ⌊q⌋ := by
  rw [Rat.floor_def', ← Rat.floor_def]

/-- `rustRound` in terms of `Int.floor` and `Int.ceil`: floor of
`q + 1/2` for nonnegative `q`, ceiling of `q - 1/2` otherwise. -/
theorem rustRound_eq (q : ℚ) :
    rustRound q = if 0 ≤ q then ⌊q + 1 / 2⌋ else ⌈q - 1 / 2⌉ := by
  unfold rustRound
  rcases le_or_lt 0 q with h | h
  · rw [if_pos h, if_pos h, ratFloor_eq_intFloor]
  · rw [if_neg (not_le.mpr h), if_neg (not_le.mpr h), ratFloor_eq_intFloor]
    rw [show (1 / 2 - q : ℚ) = -(q - 1 / 2) by ring, ← Int.ceil_neg]
    simp

/-- Rounding half away from zero moves a rational by at most 1/2. -/
theorem abs_rustRound_sub_le (q : ℚ) : |(rustRound q : ℚ) - q| ≤ 1 / 2 := by
  rw [rustRound_eq]
  rcases le_or_lt 0 q with h | h
  · rw [if_pos h, abs_le]
    constructor
    · have := Int.lt_floor_add_one (q + 1 / 2)
      linarith
    · have := Int.floor_le (q + 1 / 2)
      linarith
  · rw [if_neg (not_le.mpr h), abs_le]
    constructor
    · have := Int.le_ceil (q - 1 / 2)
      linarith
    · have := Int.ceil_lt_add_one (q - 1 / 2)
      linarith

/-- `wrap32` is the identity on values already in the i32 range. -/
theorem wrap32_eq_self {n : Int} (h1 : -(2 ^ 31) ≤ n) (h2 : n < 2 ^ 31) :
    wrap32 n = n := by
  unfold wrap32
  rw [Int.emod_eq_of_lt (by omega) (by omega)]
  omega

/-- The three rounded category percentages computed from sums `x`,
`y`, `z` of grand total `g` add up to 100 within 2/100. -/
theorem sum_round2pct_near_100 (x y z g : ℚ) (hg : g ≠ 0) (hsum : x + y + z = g) :
    |round2pct (x / g) + round2pct (y / g) + round2pct (z / g) - 100| ≤ 2 / 100 := by
  unfold round2pct
  set a : ℚ := x / g * 100 * 100 with ha
  set b : ℚ := y / g * 100 * 100 with hb
  set c : ℚ := z / g * 100 * 100 with hc
  have habc : a + b + c = 10000 := by
    rw [ha, hb, hc]
    field_simp
    linarith
  have h1 := abs_rustRound_sub_le a
  have h2 := abs_rustRound_sub_le b
  have h3 := abs_rustRound_sub_le c
  have key : ((rustRound a : ℚ) / 100 + (rustRound b : ℚ) / 100 + (rustRound c : ℚ) / 100 - 100)
      = ((rustRound a : ℚ) - a + ((rustRound b : ℚ) - b) + ((rustRound c : ℚ) - c)) / 100 := by
    field_simp
    linarith
  rw [key, abs_div]
  rw [abs_of_pos (by norm_num : (0:ℚ) < 100)]
  rw [div_le_div_iff (by norm_num) (by norm_num)]
  calc |(rustRound a : ℚ) - a + ((rustRound b : ℚ) - b) + ((rustRound c : ℚ) - c)| * 100
      ≤ (|(rustRound a : ℚ) - a| + |(rustRound b : ℚ) - b| + |(rustRound c : ℚ) - c|) * 100 := by
        have := abs_add ((rustRound a : ℚ) - a + ((rustRound b : ℚ) - b)) ((rustRound c : ℚ) - c)
        have := abs_add ((rustRound a : ℚ) - a) ((rustRound b : ℚ) - b)
        nlinarith [abs_nonneg ((rustRound a : ℚ) - a), abs_nonneg ((rustRound b : ℚ) - b),
          abs_nonneg ((rustRound c : ℚ) - c)]
    _ ≤ (3 / 2) * 100 := by linarith
    _ ≤ 2 * 100 := by norm_num

/-- Membership in a top-insight query result forces the strict
threshold and membership in the table. -/
theorem topByPercentage_mem {sel : InsightSummary → ℚ} {th : ℚ} {lim : Nat}
    {tbl : List InsightSummary} {r : InsightSummary}
    (h : r ∈ topByPercentage sel th lim tbl) : th < sel r ∧ r ∈ tbl := by
  unfold topByPercentage at h
  have h1 := List.mem_of_mem_take h
  rw [List.mem_insertionSort, List.mem_filter] at h1
  exact ⟨by simpa using h1.2, h1.1⟩

/-- Top-insight query results are sorted by percentage descending,
ties by total_count descending. -/
theorem topByPercentage_sorted (sel : InsightSummary → ℚ) (th : ℚ) (lim : Nat)
    (tbl : List InsightSummary) :
    List.Sorted (pctDescOrder sel) (topByPercentage sel th lim tbl) := by
  unfold topByPercentage
  exact (List.sorted_insertionSort _ _).sublist (List.take_sublist _ _)

/-- Top-insight query results respect the LIMIT clause. -/
theorem topByPercentage_length (sel : InsightSummary → ℚ) (th : ℚ) (lim : Nat)
    (tbl : List InsightSummary) :
    (topByPercentage sel th lim tbl).length ≤ lim := by
  unfold topByPercentage
  exact List.length_take_le _ _

/-- The pattern consisting of a single `%` matches every string. -/
theorem likeMatch_pct (s : List Char) : likeMatch ['%'] s = true := by
  show s.tails.any (fun t => likeMatch [] t) = true
  rw [List.any_eq_true]
  exact ⟨[], by rw [List.mem_tails]; exact List.nil_suffix, rfl⟩

/-- The pattern `%%` (the LIKE pattern the source builds from the
empty word) matches every string. -/
theorem likeMatch_pct_pct (s : List Char) : likeMatch ['%', '%'] s = true := by
  show s.tails.any (fun t => likeMatch ['%'] t) = true
  rw [List.any_eq_true]
  exact ⟨s, by rw [List.mem_tails], likeMatch_pct s⟩

/-- On a non-empty table, the dashboard handler completes (does not
panic) and returns exactly this envelope. -/
theorem get_dashboard_stats_some (tbl : List InsightSummary) (hne : tbl ≠ []) :
    get_dashboard_stats tbl = some
      { success := true
        data :=
          { total_insights := wrap32 tbl.length
            total_feedback := wrap32 ((tbl.map (·.total_count)).sum)
            positive_ratio := ratioCalc ((tbl.map (·.positif_count)).sum : ℚ)
              (((tbl.map (·.positif_count)).sum : ℚ) + ((tbl.map (·.negatif_count)).sum : ℚ)
                + ((tbl.map (·.netral_count)).sum : ℚ))
            negative_ratio := ratioCalc ((tbl.map (·.negatif_count)).sum : ℚ)
              (((tbl.map (·.positif_count)).sum : ℚ) + ((tbl.map (·.negatif_count)).sum : ℚ)
                + ((tbl.map (·.netral_count)).sum : ℚ))
            neutral_ratio := ratioCalc ((tbl.map (·.netral_count)).sum : ℚ)
              (((tbl.map (·.positif_count)).sum : ℚ) + ((tbl.map (·.negatif_count)).sum : ℚ)
                + ((tbl.map (·.netral_count)).sum : ℚ))
            top_positive_insights := topByPercentage (·.positif_percentage) 70 5 tbl
            top_negative_insights := topByPercentage (·.negatif_percentage) 70 5 tbl
            all_insights := sampleOrderedByTotal 20 tbl }
        message := "Successfully retrieved dashboard statistics" } := by
  have he : tbl.isEmpty = false := by simpa [List.isEmpty_iff] using hne
  unfold get_dashboard_stats sumTotalCount sumByCategory sqlSum
  rw [he]
  simp [Function.comp_def]

/-- Sample row with every sentiment count zero: its grand total is 0,
which drives the ratio computation into 0.0 / 0.0. -/
def rowZero : InsightSummary :=
  { id := 1, word_insight := "zero", total_count := 0, positif_count := 0,
    negatif_count := 0, netral_count := 0, positif_percentage := 0,
    negatif_percentage := 0, netral_percentage := 0, created_at := "2024-01-01" }

/-- Sample row: the "great" row of the spec scenario. -/
def rowGreat : InsightSummary :=
  { id := 2, word_insight := "great", total_count := 100, positif_count := 80,
    negatif_count := 10, netral_count := 10, positif_percentage := 80,
    negatif_percentage := 10, netral_percentage := 10, created_at := "2024-01-01" }

/-- Sample row whose word is the single character `x`. -/
def rowX : InsightSummary :=
  { id := 3, word_insight := "x", total_count := 3, positif_count := 1,
    negatif_count := 1, netral_count := 1, positif_percentage := 0,
    negatif_percentage := 0, netral_percentage := 0, created_at := "2024-01-01" }

/-- C1: on a table whose summed category counts give `grand == 0`
(here a single all-zero row), `get_dashboard_stats` does not return
0.0 ratios: the unguarded `total_pos / total_all` division produces
NaN (modelled `none`) in all three ratio fields of the response, so a
NaN is propagated into the response, contrary to the claim. -/
theorem C1_zero_grand_gives_nan :
    ∃ resp, get_dashboard_stats [rowZero] = some resp ∧
      resp.data.positive_ratio = none ∧
      resp.data.negative_ratio = none ∧
      resp.data.neutral_ratio = none := by
  refine ⟨_, get_dashboard_stats_some [rowZero] (by decide), ?_, ?_, ?_⟩ <;>
    simp [ratioCalc, f64div, rowZero]

/-- C2 counterexample: on the empty table the repository sum of
`total_count` is the SQL NULL (`none`), not the integer 0, and the
dashboard handler panics (modelled by `get_dashboard_stats [] = none`)
instead of completing. -/
theorem C2_empty_table_sum_null :
    sumTotalCount [] ≠ some 0 ∧ get_dashboard_stats [] = none := by
  exact ⟨by decide, by decide⟩

/-- C2 (amended): on every non-empty table the repository sum is the
integer sum of `total_count` over all rows, the dashboard path
completes without panicking, and `total_feedback` equals that sum
whenever the sum fits in the i32 range (the source casts the i64 sum
with `as i32`). -/
theorem C2_total_feedback_eq_sum (tbl : List InsightSummary) (hne : tbl ≠ [])
    (hlo : -(2 ^ 31) ≤ (tbl.map (·.total_count)).sum)
    (hhi : (tbl.map (·.total_count)).sum < 2 ^ 31) :
    sumTotalCount tbl = some ((tbl.map (·.total_count)).sum) ∧
    ∃ resp, get_dashboard_stats tbl = some resp ∧
      resp.data.total_feedback = (tbl.map (·.total_count)).sum := by
  have he : tbl.isEmpty = false := by simpa [List.isEmpty_iff] using hne
  refine ⟨by simp [sumTotalCount, sqlSum, he], _, get_dashboard_stats_some tbl hne, ?_⟩
  exact wrap32_eq_self hlo hhi

/-- C2 witness: the amended claim at the one-row table `[rowGreat]`. -/
theorem C2_total_feedback_eq_sum_witness :
    sumTotalCount [rowGreat] = some (([rowGreat].map (·.total_count)).sum) ∧
    ∃ resp, get_dashboard_stats [rowGreat] = some resp ∧
      resp.data.total_feedback = ([rowGreat].map (·.total_count)).sum :=
  C2_total_feedback_eq_sum [rowGreat] (by decide) (by decide) (by decide)

/-- C3: a repository error is never turned into a failure envelope by
the handlers: both re-raise it through the `?` operator, so the
boundary receives the bare propagated error and no
`success = false` JSON envelope is built for it. -/
theorem C3_repo_error_not_enveloped (e : RepoError) :
    get_insights_summary_boundary (Except.error e) = Except.error e ∧
    get_dashboard_stats_boundary (Except.error e) = Except.error e :=
  ⟨rfl, rfl⟩

/-- C4: the four top-insight queries return only table rows whose
category percentage strictly exceeds 70, sorted by that percentage
descending with ties broken by total_count descending, with length at
most the LIMIT (10 for the top-positive/top-negative endpoints, 5 for
the two dashboard lists). -/
theorem C4_top_by_percentage_spec (tbl : List InsightSummary) :
    ((∀ r ∈ (get_top_positive tbl).data, 70 < r.positif_percentage ∧ r ∈ tbl) ∧
      List.Sorted (pctDescOrder (·.positif_percentage)) (get_top_positive tbl).data ∧
      (get_top_positive tbl).data.length ≤ 10) ∧
    ((∀ r ∈ (get_top_negative tbl).data, 70 < r.negatif_percentage ∧ r ∈ tbl) ∧
      List.Sorted (pctDescOrder (·.negatif_percentage)) (get_top_negative tbl).data ∧
      (get_top_negative tbl).data.length ≤ 10) ∧
    (tbl ≠ [] → ∃ resp, get_dashboard_stats tbl = some resp ∧
      (∀ r ∈ resp.data.top_positive_insights, 70 < r.positif_percentage ∧ r ∈ tbl) ∧
      List.Sorted (pctDescOrder (·.positif_percentage)) resp.data.top_positive_insights ∧
      resp.data.top_positive_insights.length ≤ 5 ∧
      (∀ r ∈ resp.data.top_negative_insights, 70 < r.negatif_percentage ∧ r ∈ tbl) ∧
      List.Sorted (pctDescOrder (·.negatif_percentage)) resp.data.top_negative_insights ∧
      resp.data.top_negative_insights.length ≤ 5) := by
  refine ⟨⟨fun r hr => topByPercentage_mem hr,
      topByPercentage_sorted _ _ _ _, topByPercentage_length _ _ _ _⟩,
    ⟨fun r hr => topByPercentage_mem hr,
      topByPercentage_sorted _ _ _ _, topByPercentage_length _ _ _ _⟩,
    fun hne => ⟨_, get_dashboard_stats_some tbl hne,
      fun r hr => topByPercentage_mem hr,
      topByPercentage_sorted _ _ _ _, topByPercentage_length _ _ _ _,
      fun r hr => topByPercentage_mem hr,
      topByPercentage_sorted _ _ _ _, topByPercentage_length _ _ _ _⟩⟩

/-- C4 witness: the dashboard part of C4 at the table `[rowGreat]`,
with the non-emptiness hypothesis discharged concretely. -/
theorem C4_top_by_percentage_witness :
    ∃ resp, get_dashboard_stats [rowGreat] = some resp ∧
      (∀ r ∈ resp.data.top_positive_insights, 70 < r.positif_percentage ∧ r ∈ [rowGreat]) ∧
      List.Sorted (pctDescOrder (·.positif_percentage)) resp.data.top_positive_insights ∧
      resp.data.top_positive_insights.length ≤ 5 ∧
      (∀ r ∈ resp.data.top_negative_insights, 70 < r.negatif_percentage ∧ r ∈ [rowGreat]) ∧
      List.Sorted (pctDescOrder (·.negatif_percentage)) resp.data.top_negative_insights ∧
      resp.data.top_negative_insights.length ≤ 5 :=
  (C4_top_by_percentage_spec [rowGreat]).2.2 (by decide)

/-- C5 counterexample: called with the empty word, the handler takes
the success branch: `success = true`, status 200, and the `%%` search
returns the whole table (non-empty data), contradicting the claimed
`success = false` / empty data / 400 for the empty word. -/
theorem C5_empty_word_counterexample :
    (get_insight_by_word (some "") [rowX]).1.success = true ∧
    (get_insight_by_word (some "") [rowX]).2 = 200 ∧
    (get_insight_by_word (some "") [rowX]).1.data ≠ [] := by
  exact ⟨by decide, by decide, by decide⟩

/-- C5 (amended): an absent word parameter yields the failure envelope
`success = false`, empty data, message "Word parameter is required"
and status 400; an empty-but-present word parameter instead takes the
success branch: status 200, `success = true`, and the `%%` LIKE
pattern matches every row, so the data is a permutation of the whole
table. -/
theorem C5_word_param_validation (tbl : List InsightSummary) :
    get_insight_by_word none tbl =
      ({ success := false, data := [], message := "Word parameter is required" }, 400) ∧
    ((get_insight_by_word (some "") tbl).1.success = true ∧
      (get_insight_by_word (some "") tbl).2 = 200 ∧
      (get_insight_by_word (some "") tbl).1.data.Perm tbl) := by
  refine ⟨rfl, rfl, rfl, ?_⟩
  show (searchByWord "" tbl).Perm tbl
  unfold searchByWord
  have hfilter : tbl.filter (fun r => likeMatch (searchTerm "").data r.word_insight.data) = tbl := by
    apply List.filter_eq_self.mpr
    intro a _
    have e : (searchTerm "").data = ['%', '%'] := by decide
    rw [e, likeMatch_pct_pct]
  rw [hfilter]
  exact List.perm_insertionSort _ _

/-- The grand total the ratio computation divides by: the three
category sums added together. -/
def grandOf (tbl : List InsightSummary) : Int :=
  (tbl.map (·.positif_count)).sum + (tbl.map (·.negatif_count)).sum
    + (tbl.map (·.netral_count)).sum

/-- C6: with `grand > 0` each dashboard ratio equals
`round(x / grand * 100 * 100) / 100` (`round2pct`, rounding half away
from zero) for its category sum `x`, and the three ratios add up to
100 within 2/100. -/
theorem C6_ratio_formula (tbl : List InsightSummary) (hg : 0 < grandOf tbl) :
    ∃ resp, get_dashboard_stats tbl = some resp ∧
      resp.data.positive_ratio =
        some (round2pct (((tbl.map (·.positif_count)).sum : ℚ) / (grandOf tbl : ℚ))) ∧
      resp.data.negative_ratio =
        some (round2pct (((tbl.map (·.negatif_count)).sum : ℚ) / (grandOf tbl : ℚ))) ∧
      resp.data.neutral_ratio =
        some (round2pct (((tbl.map (·.netral_count)).sum : ℚ) / (grandOf tbl : ℚ))) ∧
      |round2pct (((tbl.map (·.positif_count)).sum : ℚ) / (grandOf tbl : ℚ)) +
        round2pct (((tbl.map (·.negatif_count)).sum : ℚ) / (grandOf tbl : ℚ)) +
        round2pct (((tbl.map (·.netral_count)).sum : ℚ) / (grandOf tbl : ℚ)) - 100|
        ≤ 2 / 100 := by
  have hne : tbl ≠ [] := by
    intro h
    subst h
    simp [grandOf] at hg
  have hgq : ((grandOf tbl : Int) : ℚ) ≠ 0 := by
    exact_mod_cast hg.ne'
  have hcast : ((tbl.map (·.positif_count)).sum : ℚ) + ((tbl.map (·.negatif_count)).sum : ℚ)
      + ((tbl.map (·.netral_count)).sum : ℚ) = ((grandOf tbl : Int) : ℚ) := by
    unfold grandOf
    push_cast
    simp [List.map_map, Function.comp_def]
  have hratio : ∀ x : ℚ,
      ratioCalc x (((tbl.map (·.positif_count)).sum : ℚ) + ((tbl.map (·.negatif_count)).sum : ℚ)
        + ((tbl.map (·.netral_count)).sum : ℚ)) = some (round2pct (x / (grandOf tbl : ℚ))) := by
    intro x
    rw [hcast]
    simp [ratioCalc, f64div, hgq]
  exact ⟨_, get_dashboard_stats_some tbl hne, hratio _, hratio _, hratio _,
    sum_round2pct_near_100 _ _ _ _ hgq hcast⟩

/-- C6 witness: grand total 100 at the one-row table `[rowGreat]`. -/
theorem C6_ratio_formula_witness :
    ∃ resp, get_dashboard_stats [rowGreat] = some resp ∧
      resp.data.positive_ratio =
        some (round2pct ((([rowGreat].map (·.positif_count)).sum : ℚ) / (grandOf [rowGreat] : ℚ))) ∧
      resp.data.negative_ratio =
        some (round2pct ((([rowGreat].map (·.negatif_count)).sum : ℚ) / (grandOf [rowGreat] : ℚ))) ∧
      resp.data.neutral_ratio =
        some (round2pct ((([rowGreat].map (·.netral_count)).sum : ℚ) / (grandOf [rowGreat] : ℚ))) ∧
      |round2pct ((([rowGreat].map (·.positif_count)).sum : ℚ) / (grandOf [rowGreat] : ℚ)) +
        round2pct ((([rowGreat].map (·.negatif_count)).sum : ℚ) / (grandOf [rowGreat] : ℚ)) +
        round2pct ((([rowGreat].map (·.netral_count)).sum : ℚ) / (grandOf [rowGreat] : ℚ)) - 100|
        ≤ 2 / 100 :=
  C6_ratio_formula [rowGreat] (by decide)

/-- C7: on every non-empty table the summary endpoint answers
`success = true` with a fixed message, and its data holds all table
rows (a permutation of the table) sorted by `total_count`
descending. -/
theorem C7_summary_sorted (tbl : List InsightSummary) (hne : tbl ≠ []) :
    (get_insights_summary tbl).success = true ∧
    (get_insights_summary tbl).data.Perm tbl ∧
    List.Sorted totalDescOrder (get_insights_summary tbl).data ∧
    (get_insights_summary tbl).message = "Successfully retrieved all insights summary" :=
  ⟨rfl, List.perm_insertionSort _ _, List.sorted_insertionSort _ _, rfl⟩

/-- C7 witness: the summary claim at the table `[rowGreat]`. -/
theorem C7_summary_sorted_witness :
    (get_insights_summary [rowGreat]).success = true ∧
    (get_insights_summary [rowGreat]).data.Perm [rowGreat] ∧
    List.Sorted totalDescOrder (get_insights_summary [rowGreat]).data ∧
    (get_insights_summary [rowGreat]).message = "Successfully retrieved all insights summary" :=
  C7_summary_sorted [rowGreat] (by decide)

/-- C8 counterexample: the non-empty word `_` is a LIKE wildcard, so
the search returns the row with word `x` although `_` is not a literal
substring of `x`: the result is not the set of rows containing the
word as a substring. -/
theorem C8_wildcard_counterexample :
    (get_insight_by_word (some "_") [rowX]).1.data = [rowX] ∧
    [rowX].filter (fun r => isSubstrOf "_".data r.word_insight.data) = [] := by
  exact ⟨by decide, by decide⟩

/-- C8 (amended): for every non-empty word `w`, the search returns
exactly the rows whose word matches the SQLite LIKE pattern `%w%`
(ASCII-case-insensitive, with `%` and `_` in `w` acting as wildcards)
— which coincides with literal substring containment only when `w` has
no metacharacters — as a permutation sorted by `total_count`
descending, with `success = true` and a message carrying the literal
search term. -/
theorem C8_like_search (w : String) (tbl : List InsightSummary) (hw : w ≠ "") :
    (get_insight_by_word (some w) tbl).1.success = true ∧
    (get_insight_by_word (some w) tbl).1.data.Perm
      (tbl.filter (fun r => likeMatch (searchTerm w).data r.word_insight.data)) ∧
    List.Sorted totalDescOrder (get_insight_by_word (some w) tbl).1.data ∧
    (get_insight_by_word (some w) tbl).1.message =
      "Successfully retrieved insights for '" ++ w ++ "'" :=
  ⟨rfl, List.perm_insertionSort _ _, List.sorted_insertionSort _ _, rfl⟩

/-- C8 witness: the amended claim at the word `foo` and table `[rowX]`. -/
theorem C8_like_search_witness :
    (get_insight_by_word (some "foo") [rowX]).1.success = true ∧
    (get_insight_by_word (some "foo") [rowX]).1.data.Perm
      ([rowX].filter (fun r => likeMatch (searchTerm "foo").data r.word_insight.data)) ∧
    List.Sorted totalDescOrder (get_insight_by_word (some "foo") [rowX]).1.data ∧
    (get_insight_by_word (some "foo") [rowX]).1.message =
      "Successfully retrieved insights for '" ++ "foo" ++ "'" :=
  C8_like_search "foo" [rowX] (by decide)

/-- C9: the word is spliced into the LIKE pattern unescaped, so its
metacharacters act as wildcards (the word `_` LIKE-matches the word
`x` though it is not a literal substring of it); yet the pattern is
passed as a bound parameter to a fixed query, so whatever the word
contains, every returned row is a row of the table. -/
theorem C9_like_wildcards_and_bound_param :
    (likeMatch (searchTerm "_").data "x".data = true ∧
      isSubstrOf "_".data "x".data = false) ∧
    ∀ (w : String) (tbl : List InsightSummary) (r : InsightSummary),
      r ∈ (get_insight_by_word (some w) tbl).1.data → r ∈ tbl := by
  refine ⟨⟨by decide, by decide⟩, ?_⟩
  intro w tbl r hr
  have hmem : r ∈ searchByWord w tbl := hr
  unfold searchByWord at hmem
  rw [List.mem_insertionSort, List.mem_filter] at hmem
  exact hmem.1

/-- C9 witness: the bound-parameter half applied at the word `_` and
the table `[rowX]`. -/
theorem C9_witness : rowX ∈ [rowX] :=
  C9_like_wildcards_and_bound_param.2 "_" [rowX] rowX (by decide)

/-- JSON values, as produced by the serde serializers the source
derives (numbers carried as exact rationals; the f64-to-text-to-f64
step of serde_json is value-preserving, so a number is modelled by its
value). -/
inductive Json where
  | jnull
  | jbool (b : Bool)
  | jnum (q : ℚ)
  | jstr (s : String)
  | jarr (xs : List Json)
  | jobj (fields : List (String × Json))

/-- The derived `Serialize` of `InsightSummary`: an object with the
ten fields in declaration order. -/
def encodeInsightSummary (r : InsightSummary) : Json :=
  .jobj [("id", .jnum (r.id : ℚ)),
         ("word_insight", .jstr r.word_insight),
         ("total_count", .jnum (r.total_count : ℚ)),
         ("positif_count", .jnum (r.positif_count : ℚ)),
         ("negatif_count", .jnum (r.negatif_count : ℚ)),
         ("netral_count", .jnum (r.netral_count : ℚ)),
         ("positif_percentage", .jnum r.positif_percentage),
         ("negatif_percentage", .jnum r.negatif_percentage),
         ("netral_percentage", .jnum r.netral_percentage),
         ("created_at", .jstr r.created_at)]

/-- The derived `Serialize` of `ApiResponse<Vec<InsightSummary>>`: an
object `{success, data, message}` with `data` the array of encoded
rows in order. -/
def encodeApiResponseList (resp : ApiResponse (List InsightSummary)) : Json :=
  .jobj [("success", .jbool resp.success),
         ("data", .jarr (resp.data.map encodeInsightSummary)),
         ("message", .jstr resp.message)]

/-- Reading an integer field back, as serde deserializes an i32 from a
JSON number. -/
def jInt (j : Json) : Option Int :=
  match j with
  | .jnum q => if q.den = 1 then some q.num else none
  | _ => none

/-- Reading an f64 field back. -/
def jNum (j : Json) : Option ℚ :=
  match j with
  | .jnum q => some q
  | _ => none

/-- Reading a string field back. -/
def jStr (j : Json) : Option String :=
  match j with
  | .jstr s => some s
  | _ => none

/-- Reading a bool field back. -/
def jBool (j : Json) : Option Bool :=
  match j with
  | .jbool b => some b
  | _ => none

/-- Modelled from the spec: the round-trip property of §8 needs a
decoder for `InsightSummary`, whose derived `Deserialize` lives in the
serde library, not in this repository: standard field lookup by name,
failing on a missing or mistyped field. -/
def decodeInsightSummary (j : Json) : Option InsightSummary :=
  match j with
  | .jobj fs => do
    let id ← (fs.lookup "id").bind jInt
    let wi ← (fs.lookup "word_insight").bind jStr
    let tc ← (fs.lookup "total_count").bind jInt
    let pc ← (fs.lookup "positif_count").bind jInt
    let nc ← (fs.lookup "negatif_count").bind jInt
    let uc ← (fs.lookup "netral_count").bind jInt
    let pp ← (fs.lookup "positif_percentage").bind jNum
    let np ← (fs.lookup "negatif_percentage").bind jNum
    let up ← (fs.lookup "netral_percentage").bind jNum
    let ca ← (fs.lookup "created_at").bind jStr
    pure { id := id, word_insight := wi, total_count := tc, positif_count := pc,
           negatif_count := nc, netral_count := uc, positif_percentage := pp,
           negatif_percentage := np, netral_percentage := up, created_at := ca }
  | _ => none

/-- Modelled from the spec: element-by-element decoding of a JSON
array of rows, as serde reads a `Vec<InsightSummary>`; fails if any
element fails, keeps the order. -/
def decodeRows : List Json → Option (List InsightSummary)
  | [] => some []
  | j :: js => do
    let r ← decodeInsightSummary j
    let rs ← decodeRows js
    pure (r :: rs)

/-- Modelled from the spec: the envelope decoder — the source derives
only `Serialize` for `ApiResponse`, so its inverse is modelled as the
standard field-lookup reading of `{success, data, message}`. -/
def decodeApiResponseList (j : Json) : Option (ApiResponse (List InsightSummary)) :=
  match j with
  | .jobj fs => do
    let s ← (fs.lookup "success").bind jBool
    let d ←
      match fs.lookup "data" with
      | some (.jarr xs) => decodeRows xs
      | _ => none
    let m ← (fs.lookup "message").bind jStr
    pure { success := s, data := d, message := m }
  | _ => none

/-- Decoding inverts encoding on a single row. -/
theorem decode_encode_insight (r : InsightSummary) :
    decodeInsightSummary (encodeInsightSummary r) = some r := by
  simp [decodeInsightSummary, encodeInsightSummary, List.lookup, jInt, jNum, jStr]

/-- Decoding inverts encoding elementwise on a row array, keeping the
order. -/
theorem decodeRows_encode (l : List InsightSummary) :
    decodeRows (l.map encodeInsightSummary) = some l := by
  induction l with
  | nil => rfl
  | cons a l ih => simp [decodeRows, decode_encode_insight, ih]

/-- C10: encoding an `ApiResponse<Vec<InsightSummary>>` to JSON and
decoding it back preserves every field of the envelope and of each
array element, and the array order. -/
theorem C10_roundtrip (resp : ApiResponse (List InsightSummary)) :
    decodeApiResponseList (encodeApiResponseList resp) = some resp := by
  simp [decodeApiResponseList, encodeApiResponseList, List.lookup, jBool, jStr,
    decodeRows_encode]
